import Mathlib

/-!
Shallow embedding of `vtkvmtkMeshWallShearRate::RequestData`
(src/vtkVmtk/Misc/vtkvmtkMeshWallShearRate.cxx) and proofs about its
per-point wall-shear-rate kernel and its orchestration logic.

Real arithmetic of the C++ `double` computations is modelled exactly over ℚ.
-/

namespace VmtkMeshWallShearRate

/-- The tensor symmetrizer of the per-point loop (lines 170-180 of the
source): from the 9-component row-major velocity gradient `g` it builds
`shearRateTensor[i][j] = 0.5 * (g[3*i+j] + g[3*j+i])`, written out entry by
entry exactly as the nine assignments in the code. -/
def shearRateTensor (g : Fin 9 → ℚ) : Fin 3 → Fin 3 → ℚ :=
  ![![(1/2) * (g 0 + g 0), (1/2) * (g 1 + g 3), (1/2) * (g 2 + g 6)],
    ![(1/2) * (g 3 + g 1), (1/2) * (g 4 + g 4), (1/2) * (g 5 + g 7)],
    ![(1/2) * (g 6 + g 2), (1/2) * (g 7 + g 5), (1/2) * (g 8 + g 8)]]

/-- The scalar `nSn` of the source (lines 182-190): starting from `0.0` the
double loop subtracts `2.0 * S[alpha][beta] * n[alpha] * n[beta]` for every
pair, i.e. it accumulates the negated terms. -/
def nSn (S : Fin 3 → Fin 3 → ℚ) (n : Fin 3 → ℚ) : ℚ :=
  ∑ alpha : Fin 3, ∑ beta : Fin 3, -(2 * S alpha beta * n alpha * n beta)

/-- The per-axis scalar `nS` of the source (lines 194-200): for axis `j` the
inner loop accumulates `-2.0 * S[j][k] * n[k]` over `k`. -/
def nS (S : Fin 3 → Fin 3 → ℚ) (n : Fin 3 → ℚ) (j : Fin 3) : ℚ :=
  ∑ k : Fin 3, -(2 * S j k * n k)

/-- The normal projector of the source (line 202):
`wallShearRate[j] = nS - nSn * normal[j]`. -/
def wallShearRate (S : Fin 3 → Fin 3 → ℚ) (n : Fin 3 → ℚ) : Fin 3 → ℚ :=
  fun j => nS S n j - nSn S n * n j

/-- The whole per-point kernel: symmetrize the gradient tuple, then project
along the normal tuple (lines 170-203 of the source). -/
def computeWallShearRate (g : Fin 9 → ℚ) (n : Fin 3 → ℚ) : Fin 3 → ℚ :=
  wallShearRate (shearRateTensor g) n

/-- Euclidean dot product of two 3-vectors. -/
def dot (u v : Fin 3 → ℚ) : ℚ :=
  ∑ k : Fin 3, u k * v k

/-- Matrix-vector product of a 3x3 tensor with a 3-vector. -/
def matVec (S : Fin 3 → Fin 3 → ℚ) (n : Fin 3 → ℚ) : Fin 3 → ℚ :=
  fun i => ∑ k : Fin 3, S i k * n k

/-- Modelled from the spec: the reference physical formula
`tau = 2 * (S . n - (n . S . n) . n)` that the source's own comment block
(lines 155-161) and the spec cite as the documented physical law. -/
def referenceWallShearRate (S : Fin 3 → Fin 3 → ℚ) (n : Fin 3 → ℚ) : Fin 3 → ℚ :=
  fun j => 2 * (matVec S n j - dot n (matVec S n) * n j)

/-- Row-major flattening of 3x3 indices: position `3*i + j` of a 9-tuple. -/
def flatIdx (i j : Fin 3) : Fin 9 :=
  ⟨3 * i.val + j.val, by have hi := i.isLt; have hj := j.isLt; omega⟩

/-- Gradient tuple with a single nonzero entry `g[2] = 2`
(so `S[0][2] = S[2][0] = 1`), used to exhibit the sign divergence. -/
def gShear : Fin 9 → ℚ := ![0, 0, 2, 0, 0, 0, 0, 0, 0]

/-- The axis-aligned unit normal `(0,0,1)`. -/
def nAxis : Fin 3 → ℚ := ![0, 0, 1]

/-- Claim C4: for every gradient tuple `g` the symmetrizer produces
`S[i][j] = 0.5 * (g[3*i+j] + g[3*j+i])`, and the output is symmetric, with
no error condition (the function is total by construction). -/
theorem shearRateTensor_spec_symm (g : Fin 9 → ℚ) (i j : Fin 3) :
    shearRateTensor g i j = (1/2) * (g (flatIdx i j) + g (flatIdx j i)) ∧
    shearRateTensor g i j = shearRateTensor g j i := by
  fin_cases i <;> fin_cases j <;>
    refine ⟨?_, ?_⟩ <;> simp [shearRateTensor, flatIdx] <;> ring

/-- Claim C10: on a gradient tuple that is already symmetric as a 3x3
matrix, the symmetrizer is the identity. -/
theorem shearRateTensor_idempotent (g : Fin 9 → ℚ)
    (hsym : ∀ i j : Fin 3, g (flatIdx i j) = g (flatIdx j i)) :
    ∀ i j : Fin 3, shearRateTensor g i j = g (flatIdx i j) := by
  have h01 := hsym 0 1
  have h02 := hsym 0 2
  have h12 := hsym 1 2
  simp [flatIdx] at h01 h02 h12
  intro i j
  fin_cases i <;> fin_cases j <;> simp [shearRateTensor, flatIdx] <;> linarith

/-- Witness for C10 at the concrete symmetric tuple
`(1,2,3,2,4,5,3,5,6)`. -/
theorem shearRateTensor_idempotent_witness :
    (∀ i j : Fin 3,
        (![1, 2, 3, 2, 4, 5, 3, 5, 6] : Fin 9 → ℚ) (flatIdx i j) =
        (![1, 2, 3, 2, 4, 5, 3, 5, 6] : Fin 9 → ℚ) (flatIdx j i)) ∧
    shearRateTensor (![1, 2, 3, 2, 4, 5, 3, 5, 6] : Fin 9 → ℚ) 0 1 =
      (![1, 2, 3, 2, 4, 5, 3, 5, 6] : Fin 9 → ℚ) (flatIdx 0 1) :=
  ⟨by intro i j; fin_cases i <;> fin_cases j <;> rfl,
    shearRateTensor_idempotent _
      (by intro i j; fin_cases i <;> fin_cases j <;> rfl) 0 1⟩

/-- Claim C2: the per-point kernel computes exactly the negation of the
reference physical formula: for every gradient tuple and every normal,
the output is `-2*(S*n) + 2*(n.S.n)*n`, i.e. `-(2*(S*n - (n.S.n)*n))`. -/
theorem computeWallShearRate_eq_neg_reference (g : Fin 9 → ℚ) (n : Fin 3 → ℚ)
    (j : Fin 3) :
    computeWallShearRate g n j =
      -2 * matVec (shearRateTensor g) n j +
        2 * dot n (matVec (shearRateTensor g) n) * n j ∧
    computeWallShearRate g n j = -(referenceWallShearRate (shearRateTensor g) n j) := by
  refine ⟨?_, ?_⟩ <;>
    fin_cases j <;>
      simp [computeWallShearRate, wallShearRate, nS, nSn, matVec, dot,
        referenceWallShearRate, Fin.sum_univ_three] <;> ring

/-- Claim C1: at the concrete shear gradient `gShear` and unit normal
`nAxis`, the kernel outputs first component `-2` while the reference
physical formula documented in the source's own comment block gives `2`:
the code computes the negation of its documented formula. -/
theorem wallShearRate_negates_documented_formula :
    computeWallShearRate gShear nAxis 0 = -2 ∧
    referenceWallShearRate (shearRateTensor gShear) nAxis 0 = 2 ∧
    dot nAxis nAxis = 1 := by
  have h6 : (![0, 0, 2, 0, 0, 0, 0, 0, 0] : Fin 9 → ℚ) 6 = 0 := rfl
  refine ⟨?_, ?_, ?_⟩ <;>
    norm_num [computeWallShearRate, wallShearRate, nS, nSn, shearRateTensor,
      referenceWallShearRate, matVec, dot, gShear, nAxis, h6, Fin.sum_univ_three]

/-- Claim C3: for every symmetric tensor `S` and unit-length normal `n`,
the projected wall shear rate is exactly orthogonal to `n`. -/
theorem wallShearRate_tangential (S : Fin 3 → Fin 3 → ℚ) (n : Fin 3 → ℚ)
    (_hsym : ∀ i j : Fin 3, S i j = S j i) (hunit : dot n n = 1) :
    dot (wallShearRate S n) n = 0 := by
  have key : dot (wallShearRate S n) n = nSn S n * (1 - dot n n) := by
    simp [dot, wallShearRate, nS, nSn, Fin.sum_univ_three]
    ring
  rw [key, hunit]
  ring

/-- Witness for C3 at the identity tensor and normal `(0,0,1)`. -/
theorem wallShearRate_tangential_witness :
    (∀ i j : Fin 3,
        (![![1, 0, 0], ![0, 1, 0], ![0, 0, 1]] : Fin 3 → Fin 3 → ℚ) i j =
        (![![1, 0, 0], ![0, 1, 0], ![0, 0, 1]] : Fin 3 → Fin 3 → ℚ) j i) ∧
    dot nAxis nAxis = 1 ∧
    dot (wallShearRate (![![1, 0, 0], ![0, 1, 0], ![0, 0, 1]] : Fin 3 → Fin 3 → ℚ) nAxis) nAxis = 0 :=
  ⟨by intro i j; fin_cases i <;> fin_cases j <;> rfl,
    by norm_num [dot, nAxis, Fin.sum_univ_three],
    wallShearRate_tangential _ nAxis
      (by intro i j; fin_cases i <;> fin_cases j <;> rfl)
      (by norm_num [dot, nAxis, Fin.sum_univ_three])⟩

/-! ## The Surface Field Assembler (`RequestData`, lines 70-215)

The gradient filter, the geometry filter and the normals filter are external
collaborators (distinct classes, invoked but not defined in this file of the
repository); their composition, which maps the input volumetric grid to the
normal-annotated boundary surface `outputSurface`, is modelled as an opaque
function parameter `surfacePipeline`. Everything `RequestData` itself does —
the two precondition checks, array lookup, the per-point loop, the deep copy
and the array attachment — is embedded below. -/

/-- A named VTK data array: a name, a component count, and one tuple
(a list of rationals) per point. -/
structure DataArray where
  name : String
  numberOfComponents : ℕ
  tuples : List (List ℚ)

/-- `vtkPointData::GetArray(name)`: the first array with the given name,
if any. -/
def getArray (arrays : List DataArray) (aname : String) : Option DataArray :=
  arrays.find? (fun a => a.name == aname)

/-- `vtkPointData::AddArray`: an existing array with the same name is
replaced in place (last writer wins); otherwise the array is appended. -/
def addArray (arrays : List DataArray) (a : DataArray) : List DataArray :=
  if arrays.any (fun b => b.name == a.name) then
    arrays.map (fun b => if b.name == a.name then a else b)
  else
    arrays ++ [a]

/-- The boundary surface produced by the collaborator chain: points,
cells, point-data arrays, and the normals produced by the normals filter
(`GetPointData()->GetNormals()`). -/
structure SurfaceMesh where
  points : List (ℚ × ℚ × ℚ)
  cells : List (List ℕ)
  pointDataArrays : List DataArray
  normalsArray : Option DataArray

/-- `GetNumberOfPoints()` of a surface mesh. -/
def SurfaceMesh.numberOfPoints (s : SurfaceMesh) : ℕ := s.points.length

/-- The input volumetric mesh: points, cells, and point-data arrays. -/
structure UnstructuredGrid where
  points : List (ℚ × ℚ × ℚ)
  cells : List (List ℕ)
  pointDataArrays : List DataArray

/-- The filter's configuration state (set by the caller before the pass):
the ivars of `vtkvmtkMeshWallShearRate`. A `none` name models a NULL
`char*`. -/
structure MeshWallShearRateFilter where
  velocityArrayName : Option String
  wallShearRateArrayName : Option String
  computeIndividualPartialDerivatives : Bool
  convergenceTolerance : ℚ
  quadratureOrder : ℤ

/-- The constructor (lines 41-48): both array names NULL, tolerance 1e-6,
quadrature order 3. -/
def mkMeshWallShearRate : MeshWallShearRateFilter :=
  { velocityArrayName := none
    wallShearRateArrayName := none
    computeIndividualPartialDerivatives := false
    convergenceTolerance := 1 / 1000000
    quadratureOrder := 3 }

/-- The error conditions the pass reports through `vtkErrorMacro`. -/
inductive FilterError where
  | configurationError
  | missingFieldError

/-- The observable outcome of one `RequestData` pass: the `int` return
value, the errors reported via `vtkErrorMacro`, and the output surface
(`none` models "the output object was never touched"). -/
structure RequestDataResult where
  status : ℤ
  reportedErrors : List FilterError
  output : Option SurfaceMesh

/-- `GetTuple(i, buffer)` on an array that may be absent: the i-th tuple,
or an empty buffer when the array pointer is NULL or the index is out of
range (the C++ would be undefined behaviour there; the code never checks). -/
def tupleAt (a : Option DataArray) (i : ℕ) : List ℚ :=
  match a with
  | none => []
  | some arr => arr.tuples.getD i []

/-- Component access on a tuple buffer, defaulting to 0. -/
def listComp (t : List ℚ) (i : ℕ) : ℚ := t.getD i 0

/-- The per-point kernel applied to raw tuple buffers: symmetrize the
9-component gradient tuple, project along the normal tuple, and emit the
3-component wall shear rate tuple (lines 170-204). -/
def kernelOnTuples (g n : List ℚ) : List ℚ :=
  [computeWallShearRate (fun i => listComp g i.val) (fun i => listComp n i.val) 0,
   computeWallShearRate (fun i => listComp g i.val) (fun i => listComp n i.val) 1,
   computeWallShearRate (fun i => listComp g i.val) (fun i => listComp n i.val) 2]

/-- The fixed internal name of the gradient array (line 97). -/
def gradientArrayName : String := "VelocityGradient"

/-- The name given to the output array (lines 139-146): the caller's
`WallShearRateArrayName` when set, else the default `"WallShearRate"`. -/
def outputArrayName (self : MeshWallShearRateFilter) : String :=
  match self.wallShearRateArrayName with
  | some s => s
  | none => "WallShearRate"

/-- The wall shear rate array built by the per-point loop (lines 138-205):
3 components, one tuple per surface point, tuple `i` computed by the kernel
from the gradient tuple and the normal tuple at index `i`. -/
def buildWallShearRateArray (self : MeshWallShearRateFilter)
    (outputSurface : SurfaceMesh) : DataArray :=
  { name := outputArrayName self
    numberOfComponents := 3
    tuples := (List.range outputSurface.numberOfPoints).map fun i =>
      kernelOnTuples
        (tupleAt (getArray outputSurface.pointDataArrays gradientArrayName) i)
        (tupleAt outputSurface.normalsArray i) }

/-- Lines 207-208: `output->DeepCopy(outputSurface)` followed by
`output->GetPointData()->AddArray(wallShearRateArray)`. -/
def attachOutput (outputSurface : SurfaceMesh) (a : DataArray) : SurfaceMesh :=
  { points := outputSurface.points
    cells := outputSurface.cells
    pointDataArrays := addArray outputSurface.pointDataArrays a
    normalsArray := outputSurface.normalsArray }

/-- The whole `RequestData` pass (lines 70-215). `surfacePipeline` stands
for the collaborator chain gradient filter → geometry filter → normals
filter that turns the input grid into the normal-annotated boundary
surface. Both precondition failures report an error and `return 1` — the
same value the success path returns. -/
def requestData (self : MeshWallShearRateFilter)
    (surfacePipeline : UnstructuredGrid → SurfaceMesh)
    (input : UnstructuredGrid) : RequestDataResult :=
  match self.velocityArrayName with
  | none =>
    { status := 1, reportedErrors := [FilterError.configurationError], output := none }
  | some vname =>
    match getArray input.pointDataArrays vname with
    | none =>
      { status := 1, reportedErrors := [FilterError.missingFieldError], output := none }
    | some _ =>
      let outputSurface := surfacePipeline input
      let wallShearRateArray := buildWallShearRateArray self outputSurface
      { status := 1
        reportedErrors := []
        output := some (attachOutput outputSurface wallShearRateArray) }

/-! ### Concrete fixtures for witnesses and counterexamples -/

/-- A 3-component velocity array with one zero tuple. -/
def velocityArray0 : DataArray :=
  { name := "Velocity", numberOfComponents := 3, tuples := [[0, 0, 0]] }

/-- A one-point volumetric grid carrying `velocityArray0`. -/
def goodGrid : UnstructuredGrid :=
  { points := [(0, 0, 0)], cells := [[0]], pointDataArrays := [velocityArray0] }

/-- A volumetric grid with no point data at all. -/
def emptyGrid : UnstructuredGrid :=
  { points := [], cells := [], pointDataArrays := [] }

/-- A zero gradient array restricted to one surface point. -/
def gradientZeroArray : DataArray :=
  { name := "VelocityGradient", numberOfComponents := 9,
    tuples := [[0, 0, 0, 0, 0, 0, 0, 0, 0]] }

/-- A normals array holding the single unit normal `(0,0,1)`. -/
def normalsZArray : DataArray :=
  { name := "Normals", numberOfComponents := 3, tuples := [[0, 0, 1]] }

/-- A one-point boundary surface with a gradient array and normals. -/
def surfZero : SurfaceMesh :=
  { points := [(0, 0, 0)], cells := [[0]],
    pointDataArrays := [gradientZeroArray], normalsArray := some normalsZArray }

/-- A collaborator chain that always yields `surfZero`. -/
def constPipeline : UnstructuredGrid → SurfaceMesh := fun _ => surfZero

/-- An array already named `"WallShearRate"` living on the collaborator
surface, to exhibit the name-clash replacement. -/
def clashingArray : DataArray :=
  { name := "WallShearRate", numberOfComponents := 3, tuples := [[7, 7, 7]] }

/-- A boundary surface that already carries a `"WallShearRate"` array. -/
def surfClash : SurfaceMesh :=
  { points := [(0, 0, 0)], cells := [[0]],
    pointDataArrays := [clashingArray, gradientZeroArray],
    normalsArray := some normalsZArray }

/-- A collaborator chain that always yields `surfClash`. -/
def clashPipeline : UnstructuredGrid → SurfaceMesh := fun _ => surfClash

/-- A correctly configured filter: velocity name set, output name left at
its default. -/
def cfgGood : MeshWallShearRateFilter :=
  { mkMeshWallShearRate with velocityArrayName := some "Velocity" }

/-- A configuration that overrides the output array name. -/
def cfgNamed : MeshWallShearRateFilter :=
  { cfgGood with wallShearRateArrayName := some "TractionRate" }

/-- Claim C5 (amended): with no velocity array name configured the pass
reports a `configurationError` and leaves the output untouched, but its
return value is 1 — the very value the success path returns — so the
"failure" is visible only through the reported error, not the status
code. -/
theorem requestData_noVelocityName (self : MeshWallShearRateFilter)
    (surfacePipeline : UnstructuredGrid → SurfaceMesh) (input : UnstructuredGrid)
    (h : self.velocityArrayName = none) :
    requestData self surfacePipeline input =
      { status := 1, reportedErrors := [FilterError.configurationError],
        output := none } := by
  simp [requestData, h]

/-- Witness for the amended C5 at the freshly constructed filter. -/
theorem requestData_noVelocityName_witness :
    mkMeshWallShearRate.velocityArrayName = none ∧
    requestData mkMeshWallShearRate constPipeline goodGrid =
      { status := 1, reportedErrors := [FilterError.configurationError],
        output := none } :=
  ⟨rfl, requestData_noVelocityName mkMeshWallShearRate constPipeline goodGrid rfl⟩

/-- Counterexample to C5 as stated: the missing-name path reports the
configuration error and produces no output, but its status code equals the
status code of a fully successful pass (both are 1), so it does not return
a non-success failure code. -/
theorem requestData_noVelocityName_status_counterexample :
    (requestData mkMeshWallShearRate constPipeline goodGrid).reportedErrors =
      [FilterError.configurationError] ∧
    (requestData mkMeshWallShearRate constPipeline goodGrid).output = none ∧
    (requestData mkMeshWallShearRate constPipeline goodGrid).status =
      (requestData cfgGood constPipeline goodGrid).status ∧
    (requestData cfgGood constPipeline goodGrid).reportedErrors = [] ∧
    (requestData mkMeshWallShearRate constPipeline goodGrid).status = 1 :=
  ⟨rfl, rfl, rfl, rfl, rfl⟩

/-- Claim C6 (amended): when the configured velocity array name is absent
from the input grid's point data, the pass reports a `missingFieldError`
and leaves the output untouched, but again returns 1, the success path's
return value. -/
theorem requestData_missingVelocityArray (self : MeshWallShearRateFilter)
    (surfacePipeline : UnstructuredGrid → SurfaceMesh) (input : UnstructuredGrid)
    (vname : String) (h1 : self.velocityArrayName = some vname)
    (h2 : getArray input.pointDataArrays vname = none) :
    requestData self surfacePipeline input =
      { status := 1, reportedErrors := [FilterError.missingFieldError],
        output := none } := by
  simp [requestData, h1, h2]

/-- Witness for the amended C6: name `"Velocity"` configured, input grid
has no arrays at all. -/
theorem requestData_missingVelocityArray_witness :
    cfgGood.velocityArrayName = some "Velocity" ∧
    getArray emptyGrid.pointDataArrays "Velocity" = none ∧
    requestData cfgGood constPipeline emptyGrid =
      { status := 1, reportedErrors := [FilterError.missingFieldError],
        output := none } :=
  ⟨rfl, rfl,
    requestData_missingVelocityArray cfgGood constPipeline emptyGrid "Velocity" rfl rfl⟩

/-- Counterexample to C6 as stated: the missing-field path reports the
error and produces no output, yet its status code is 1, identical to the
status code of a successful pass — not a non-success result. -/
theorem requestData_missingVelocityArray_status_counterexample :
    (requestData cfgGood constPipeline emptyGrid).reportedErrors =
      [FilterError.missingFieldError] ∧
    (requestData cfgGood constPipeline emptyGrid).output = none ∧
    (requestData cfgGood constPipeline emptyGrid).status =
      (requestData cfgGood constPipeline goodGrid).status ∧
    (requestData cfgGood constPipeline goodGrid).reportedErrors = [] ∧
    (requestData cfgGood constPipeline emptyGrid).status = 1 :=
  ⟨rfl, rfl, rfl, rfl, rfl⟩

/-- Claim C7: on a successful pass, the wall shear rate array has exactly
one 3-component tuple per surface point, and tuple `i` is computed by the
per-point kernel solely from the gradient tuple and the normal tuple at
the same index `i`. -/
theorem requestData_field_length_and_pointwise (self : MeshWallShearRateFilter)
    (surfacePipeline : UnstructuredGrid → SurfaceMesh) (input : UnstructuredGrid)
    (vname : String) (varr : DataArray)
    (h1 : self.velocityArrayName = some vname)
    (h2 : getArray input.pointDataArrays vname = some varr) :
    (requestData self surfacePipeline input).output =
      some (attachOutput (surfacePipeline input)
        (buildWallShearRateArray self (surfacePipeline input))) ∧
    (buildWallShearRateArray self (surfacePipeline input)).tuples.length =
      (surfacePipeline input).numberOfPoints ∧
    (buildWallShearRateArray self (surfacePipeline input)).numberOfComponents = 3 ∧
    ∀ i : ℕ, i < (surfacePipeline input).numberOfPoints →
      (buildWallShearRateArray self (surfacePipeline input)).tuples.getD i [] =
        kernelOnTuples
          (tupleAt (getArray (surfacePipeline input).pointDataArrays gradientArrayName) i)
          (tupleAt (surfacePipeline input).normalsArray i) ∧
      ((buildWallShearRateArray self (surfacePipeline input)).tuples.getD i []).length = 3 := by
  refine ⟨by simp [requestData, h1, h2], by simp [buildWallShearRateArray], rfl, ?_⟩
  intro i hi
  have hidx : ((List.range (surfacePipeline input).numberOfPoints).map fun k =>
      kernelOnTuples
        (tupleAt (getArray (surfacePipeline input).pointDataArrays gradientArrayName) k)
        (tupleAt (surfacePipeline input).normalsArray k)).getD i [] =
      kernelOnTuples
        (tupleAt (getArray (surfacePipeline input).pointDataArrays gradientArrayName) i)
        (tupleAt (surfacePipeline input).normalsArray i) := by
    rw [List.getD_eq_getElem?_getD, List.getElem?_map, List.getElem?_range hi]
    rfl
  refine ⟨by simpa [buildWallShearRateArray] using hidx, ?_⟩
  rw [show (buildWallShearRateArray self (surfacePipeline input)).tuples =
      (List.range (surfacePipeline input).numberOfPoints).map fun k =>
        kernelOnTuples
          (tupleAt (getArray (surfacePipeline input).pointDataArrays gradientArrayName) k)
          (tupleAt (surfacePipeline input).normalsArray k) from rfl, hidx]
  rfl

/-- Witness for C7 at the one-point fixture surface. -/
theorem requestData_field_length_and_pointwise_witness :
    cfgGood.velocityArrayName = some "Velocity" ∧
    getArray goodGrid.pointDataArrays "Velocity" = some velocityArray0 ∧
    (requestData cfgGood constPipeline goodGrid).output =
      some (attachOutput surfZero (buildWallShearRateArray cfgGood surfZero)) ∧
    (buildWallShearRateArray cfgGood surfZero).tuples.length = surfZero.numberOfPoints :=
  ⟨rfl, rfl,
    (requestData_field_length_and_pointwise cfgGood constPipeline goodGrid
      "Velocity" velocityArray0 rfl rfl).1,
    (requestData_field_length_and_pointwise cfgGood constPipeline goodGrid
      "Velocity" velocityArray0 rfl rfl).2.1⟩

/-- Claim C8 (amended): on success, and provided the configured output name
does not already occur among the collaborator surface's array names, the
output is that surface with identical points, cells and normals, its
arrays unchanged, and exactly the new 3-component wall shear rate field
appended at the end. (When the name already occurs, the existing array is
replaced in place instead — last writer wins.) -/
theorem requestData_appends_field_when_name_fresh (self : MeshWallShearRateFilter)
    (surfacePipeline : UnstructuredGrid → SurfaceMesh) (input : UnstructuredGrid)
    (vname : String) (varr : DataArray)
    (h1 : self.velocityArrayName = some vname)
    (h2 : getArray input.pointDataArrays vname = some varr)
    (hfresh : outputArrayName self ∉
      (surfacePipeline input).pointDataArrays.map DataArray.name) :
    (requestData self surfacePipeline input).output =
      some { points := (surfacePipeline input).points
             cells := (surfacePipeline input).cells
             pointDataArrays := (surfacePipeline input).pointDataArrays ++
               [buildWallShearRateArray self (surfacePipeline input)]
             normalsArray := (surfacePipeline input).normalsArray } ∧
    (buildWallShearRateArray self (surfacePipeline input)).name = outputArrayName self ∧
    (buildWallShearRateArray self (surfacePipeline input)).numberOfComponents = 3 ∧
    (buildWallShearRateArray self (surfacePipeline input)).tuples.length =
      (surfacePipeline input).numberOfPoints := by
  have hany : ((surfacePipeline input).pointDataArrays.any fun b =>
      b.name == (buildWallShearRateArray self (surfacePipeline input)).name) = false := by
    rw [List.any_eq_false]
    intro b hb
    simp only [beq_iff_eq]
    intro heq
    apply hfresh
    have hmem : b.name ∈ (surfacePipeline input).pointDataArrays.map DataArray.name :=
      List.mem_map_of_mem DataArray.name hb
    have hname : b.name = outputArrayName self := heq
    rwa [hname] at hmem
  refine ⟨?_, rfl, rfl, by simp [buildWallShearRateArray]⟩
  simp [requestData, h1, h2, attachOutput, addArray, hany]

/-- Witness for the amended C8: the fixture surface carries only a
`"VelocityGradient"` array, so the default output name is fresh. -/
theorem requestData_appends_field_when_name_fresh_witness :
    outputArrayName cfgGood ∉ surfZero.pointDataArrays.map DataArray.name ∧
    (requestData cfgGood constPipeline goodGrid).output =
      some { points := surfZero.points
             cells := surfZero.cells
             pointDataArrays := surfZero.pointDataArrays ++
               [buildWallShearRateArray cfgGood surfZero]
             normalsArray := surfZero.normalsArray } :=
  ⟨by decide,
    (requestData_appends_field_when_name_fresh cfgGood constPipeline goodGrid
      "Velocity" velocityArray0 rfl rfl (by decide)).1⟩

/-- Counterexample to C8 as stated: when the collaborator surface already
carries an array named `"WallShearRate"`, the pass replaces it instead of
appending — the output has the same number of arrays as the surface (2,
not 3), so no field was appended and an existing array was overwritten. -/
theorem requestData_name_clash_counterexample :
    ((requestData cfgGood clashPipeline goodGrid).output.map fun o =>
      o.pointDataArrays.length) = some 2 ∧
    surfClash.pointDataArrays.length = 2 ∧
    ((requestData cfgGood clashPipeline goodGrid).output.map fun o =>
      o.pointDataArrays.map DataArray.name) =
      some ["WallShearRate", "VelocityGradient"] :=
  ⟨rfl, rfl, rfl⟩

/-- Claim C9: the result field is attached under the caller-specified
output name when one is set, and under the default `"WallShearRate"`
otherwise. -/
theorem requestData_output_field_name (self : MeshWallShearRateFilter)
    (surfacePipeline : UnstructuredGrid → SurfaceMesh) (input : UnstructuredGrid)
    (vname : String) (varr : DataArray)
    (h1 : self.velocityArrayName = some vname)
    (h2 : getArray input.pointDataArrays vname = some varr) :
    (requestData self surfacePipeline input).output =
      some (attachOutput (surfacePipeline input)
        (buildWallShearRateArray self (surfacePipeline input))) ∧
    (buildWallShearRateArray self (surfacePipeline input)).name = outputArrayName self ∧
    (self.wallShearRateArrayName = none → outputArrayName self = "WallShearRate") ∧
    (∀ s : String, self.wallShearRateArrayName = some s → outputArrayName self = s) := by
  refine ⟨by simp [requestData, h1, h2], rfl, ?_, ?_⟩
  · intro h
    simp [outputArrayName, h]
  · intro s h
    simp [outputArrayName, h]

/-- Witness for C9: the override `"TractionRate"` is used when set, the
default `"WallShearRate"` when not. -/
theorem requestData_output_field_name_witness :
    cfgNamed.wallShearRateArrayName = some "TractionRate" ∧
    outputArrayName cfgNamed = "TractionRate" ∧
    cfgGood.wallShearRateArrayName = none ∧
    outputArrayName cfgGood = "WallShearRate" :=
  ⟨rfl,
    (requestData_output_field_name cfgNamed constPipeline goodGrid
      "Velocity" velocityArray0 rfl rfl).2.2.2 "TractionRate" rfl,
    rfl,
    (requestData_output_field_name cfgGood constPipeline goodGrid
      "Velocity" velocityArray0 rfl rfl).2.2.1 rfl⟩

end VmtkMeshWallShearRate
